import Mathlib

/-!
Verification of the Kart versioned-dataset engine (shallow embedding).

Each definition below is translated from the corresponding Python source file
of the repository (kart/diff_structs.py, kart/key_filters.py, kart/repo.py,
kart/merge.py, kart/fast_import.py, kart/tile/importer.py).  Machine-level
details that the claims do not depend on (lazy value callables, I/O handles)
are modelled by their evaluated counterparts; every such simplification is
noted at the definition it affects.
-/

namespace Kart

/-! ## Delta algebra (kart/diff_structs.py) -/

/-- `KeyValue` from diff_structs.py: a key-value pair; a delta is made of two
of these - one old, one new.  Lazy callable values are modelled as their
evaluated value (`get_lazy_value`). -/
structure KeyValue (K V : Type) where
  key : K
  value : V
deriving DecidableEq, Repr

/-- The `Conflict` exception raised by `Delta.__add__` on an impossible
composition. -/
inductive Conflict where
  | conflict
deriving DecidableEq, Repr

/-- The derived `type` attribute of a Delta: insert if only new, delete if
only old, update otherwise. -/
inductive DeltaType where
  | insert
  | delete
  | update
deriving DecidableEq, Repr

/-- `Delta` from diff_structs.py: an object changes from old to new; either
side may be absent (insert / delete).  The Python constructor rejects the
empty delta (both sides absent); we record that restriction in
`Delta.valid`.  `flags` is the integer flag set (`WORKING_COPY_EDIT = 0x1`,
`BINARY_FILE = 0x2`), initialised to 0 by the constructor. -/
structure Delta (K V : Type) where
  old : Option (KeyValue K V)
  new : Option (KeyValue K V)
  flags : Nat
deriving DecidableEq, Repr

namespace Delta

variable {K V : Type}

/-- The Python constructor raises `ValueError("Empty Delta")` when both sides
are `None`; a valid delta has at least one side present. -/
def valid (d : Delta K V) : Prop :=
  d.old.isSome ∨ d.new.isSome

instance (d : Delta K V) : Decidable d.valid := by
  unfold valid; infer_instance

/-- The derived `type` attribute, following the branch order of the Python
`__init__`: `old is None` gives insert, then `new is None` gives delete,
otherwise update. -/
def dtype (d : Delta K V) : DeltaType :=
  match d.old, d.new with
  | none, _ => .insert
  | some _, none => .delete
  | some _, some _ => .update

/-- `Delta.insert(new)` - constructor sets flags to 0. -/
def insertD (new : KeyValue K V) : Delta K V := ⟨none, some new, 0⟩

/-- `Delta.delete(old)` - constructor sets flags to 0. -/
def deleteD (old : KeyValue K V) : Delta K V := ⟨some old, none, 0⟩

/-- `Delta.update(old, new)` - constructor sets flags to 0. -/
def updateD (old new : KeyValue K V) : Delta K V := ⟨some old, some new, 0⟩

/-- `Delta.maybe_update(old, new)`: returns the update delta when the two
(lazily evaluated) values differ, otherwise `None`. -/
def maybe_update [DecidableEq V] (old new : KeyValue K V) : Option (Delta K V) :=
  if old.value ≠ new.value then some (updateD old new) else none

/-- `Delta.__add__`: concatenate this delta with the subsequent delta.  The
result is `Except Conflict (Option (Delta K V))`: `.error` models the raised
`Conflict`, `.ok none` models the `None` ("noop") result.  The match mirrors
the Python if-chain on `self.type` and `other.type` (the type of a delta is
determined by which of its sides are present).  The cases pairing a
delete-typed `self` with an empty `other` are unreachable for deltas built by
the constructor, which rejects empty deltas. -/
def add [DecidableEq V] (a b : Delta K V) : Except Conflict (Option (Delta K V)) :=
  let res : Except Conflict (Option (Delta K V)) :=
    match a.old, a.new, b.old, b.new with
    -- self.type == "insert" (a.old is None):
    | none, _, none, _ => .error .conflict                     -- ins + ins -> Conflict
    | none, _, some _, some bn => .ok (some (insertD bn))      -- ins + upd -> ins
    | none, _, some _, none => .ok none                        -- ins + del -> noop
    -- self.type == "update" (both sides present):
    | some _, some _, none, _ => .error .conflict              -- upd + ins -> Conflict
    | some ao, some _, some _, some bn => .ok (maybe_update ao bn)  -- upd + upd -> upd?
    | some ao, some _, some _, none => .ok (some (deleteD ao)) -- upd + del -> del
    -- self.type == "delete" (a.new is None):
    | some ao, none, none, some bn => .ok (maybe_update ao bn) -- del + ins -> upd?
    | some _, none, none, none => .ok none                     -- unreachable: empty other
    | some _, none, some _, _ => .error .conflict              -- del + del / del + upd -> Conflict
  -- `if result is not None: result.flags = self.flags | other.flags`
  match res with
  | .ok (some d) => .ok (some { d with flags := a.flags ||| b.flags })
  | other => other

/-- `Delta.__invert__`: `Delta(self.new, self.old)` - a fresh delta whose
constructor resets flags to 0. -/
def invert (d : Delta K V) : Delta K V := ⟨d.new, d.old, 0⟩

/-- Equality as implemented by the `@dataclass` decorator on `Delta`: only
the annotated fields `old` and `new` are compared (`type` and `flags` are
instance attributes assigned in `__init__`, not dataclass fields). -/
def pyEq (a b : Delta K V) : Prop :=
  a.old = b.old ∧ a.new = b.new

instance (a b : Delta K V) [DecidableEq K] [DecidableEq V] : Decidable (a.pyEq b) := by
  unfold pyEq; infer_instance

end Delta

end Kart

open Kart

/-- C1: Delta concatenation (`Delta.__add__`) follows the composition table.
Each conjunct fixes the types of the two operands by fixing which of their
sides are present; the conflict rows hold for all operands of those types
(the code raises `Conflict` before looking at the values), and the remaining
rows give exactly the results of the table, with flags OR-combined on every
non-empty result.  This implies the claim's statement, which additionally
assumes `a.new == b.old`. -/
theorem c1_delta_add_table {K V : Type} [DecidableEq V] :
    -- insert + insert -> Conflict
    (∀ (an bn : Option (KeyValue K V)) (fa fb : Nat),
      Delta.add ⟨none, an, fa⟩ ⟨none, bn, fb⟩ = .error .conflict) ∧
    -- insert + update -> insert(new=other.new)
    (∀ (an : Option (KeyValue K V)) (bo bn : KeyValue K V) (fa fb : Nat),
      Delta.add ⟨none, an, fa⟩ ⟨some bo, some bn, fb⟩ =
        .ok (some ⟨none, some bn, fa ||| fb⟩)) ∧
    -- insert + delete -> empty result (noop)
    (∀ (an : Option (KeyValue K V)) (bo : KeyValue K V) (fa fb : Nat),
      Delta.add ⟨none, an, fa⟩ ⟨some bo, none, fb⟩ = .ok none) ∧
    -- update + insert -> Conflict
    (∀ (ao an : KeyValue K V) (bn : Option (KeyValue K V)) (fa fb : Nat),
      Delta.add ⟨some ao, some an, fa⟩ ⟨none, bn, fb⟩ = .error .conflict) ∧
    -- update + update -> update(old=self.old, new=other.new), or empty if the values are equal
    (∀ (ao an bo bn : KeyValue K V) (fa fb : Nat),
      Delta.add ⟨some ao, some an, fa⟩ ⟨some bo, some bn, fb⟩ =
        .ok (if ao.value ≠ bn.value then some ⟨some ao, some bn, fa ||| fb⟩ else none)) ∧
    -- update + delete -> delete(old=self.old)
    (∀ (ao an bo : KeyValue K V) (fa fb : Nat),
      Delta.add ⟨some ao, some an, fa⟩ ⟨some bo, none, fb⟩ =
        .ok (some ⟨some ao, none, fa ||| fb⟩)) ∧
    -- delete + insert -> update(old=self.old, new=other.new), or empty if the values are equal
    (∀ (ao bn : KeyValue K V) (fa fb : Nat),
      Delta.add ⟨some ao, none, fa⟩ ⟨none, some bn, fb⟩ =
        .ok (if ao.value ≠ bn.value then some ⟨some ao, some bn, fa ||| fb⟩ else none)) ∧
    -- delete + delete -> Conflict
    (∀ (ao bo : KeyValue K V) (fa fb : Nat),
      Delta.add ⟨some ao, none, fa⟩ ⟨some bo, none, fb⟩ = .error .conflict) ∧
    -- delete + update -> Conflict
    (∀ (ao bo bn : KeyValue K V) (fa fb : Nat),
      Delta.add ⟨some ao, none, fa⟩ ⟨some bo, some bn, fb⟩ = .error .conflict) := by
  refine ⟨fun _ _ _ _ => rfl, fun _ _ _ _ _ => rfl, fun _ _ _ _ => rfl,
    fun _ _ _ _ _ => rfl, ?_, fun _ _ _ _ _ => rfl, ?_, fun _ _ _ _ => rfl,
    fun _ _ _ _ _ => rfl⟩
  · intro ao an bo bn fa fb
    by_cases h : ao.value = bn.value <;>
      simp [Delta.add, Delta.maybe_update, Delta.updateD, h]
  · intro ao bn fa fb
    by_cases h : ao.value = bn.value <;>
      simp [Delta.add, Delta.maybe_update, Delta.updateD, h]

/-- C2: Delta inversion swaps `old` and `new`; `~~δ = δ` (under dataclass
equality, which compares the `old` and `new` fields); for concatenable deltas
for which both sides are defined, `~(a + b) = (~b) + (~a)`; and the flags of
`a + b` are the bitwise OR of `a.flags` and `b.flags`. -/
theorem c2_delta_inversion {K V : Type} [DecidableEq V] :
    (∀ d : Delta K V, (d.invert).old = d.new ∧ (d.invert).new = d.old) ∧
    (∀ d : Delta K V, (d.invert.invert).pyEq d) ∧
    (∀ a b c d : Delta K V, a.add b = .ok (some c) →
      (b.invert).add (a.invert) = .ok (some d) → (c.invert).pyEq d) ∧
    (∀ a b c : Delta K V, a.add b = .ok (some c) → c.flags = a.flags ||| b.flags) := by
  refine ⟨fun d => ⟨rfl, rfl⟩, fun d => ⟨rfl, rfl⟩, ?_, ?_⟩
  · rintro ⟨ao, an, fa⟩ ⟨bo, bn, fb⟩ c d h1 h2
    rcases ao with _ | ao <;> rcases an with _ | an <;>
      rcases bo with _ | bo <;> rcases bn with _ | bn <;>
      simp only [Delta.add, Delta.maybe_update, Delta.invert, Delta.insertD,
        Delta.deleteD, Delta.updateD] at h1 h2
    all_goals try split_ifs at h1 h2
    all_goals try simp at h1 h2
    all_goals try subst h1
    all_goals try subst h2
    all_goals exact ⟨rfl, rfl⟩
  · rintro ⟨ao, an, fa⟩ ⟨bo, bn, fb⟩ c h1
    rcases ao with _ | ao <;> rcases an with _ | an <;>
      rcases bo with _ | bo <;> rcases bn with _ | bn <;>
      simp only [Delta.add, Delta.maybe_update, Delta.insertD,
        Delta.deleteD, Delta.updateD] at h1
    all_goals try split_ifs at h1
    all_goals try simp at h1
    all_goals try subst h1
    all_goals rfl

/-- Witness for C2 at concrete deltas: two consecutive updates of the feature
with key 0 (value 1 -> 2 -> 3, with flags 1 and 2). -/
theorem c2_delta_inversion_witness :
    (Delta.invert (⟨some ⟨0, 1⟩, some ⟨0, 3⟩, 3⟩ : Delta Nat Nat)).pyEq
      ⟨some ⟨0, 3⟩, some ⟨0, 1⟩, 0⟩ :=
  c2_delta_inversion.2.2.1
    ⟨some ⟨0, 1⟩, some ⟨0, 2⟩, 1⟩ ⟨some ⟨0, 2⟩, some ⟨0, 3⟩, 2⟩
    ⟨some ⟨0, 1⟩, some ⟨0, 3⟩, 3⟩ ⟨some ⟨0, 3⟩, some ⟨0, 1⟩, 0⟩
    (by rfl) (by rfl)

namespace Kart

/-! ## Repository merge state (kart/repo.py, kart/merge.py) -/

/-- The two values of `KartRepoState` in repo.py. -/
inductive KartRepoState where
  | normal
  | merging
deriving DecidableEq, Repr

/-- The error taxonomy used by the merge code paths (kart/exceptions.py):
`NotFound` and `InvalidOperation` are the ones these claims exercise. -/
inductive KartError where
  | notFound (msg : String)
  | invalidOperation (msg : String)
deriving DecidableEq, Repr

/-- Existence of the merge-state files in the repository's gitdir
(`KartRepoFiles` in repo.py): `MERGE_HEAD`, `MERGED_INDEX`, `MERGED_TREE`,
`MERGE_MSG`, `MERGE_BRANCH`.  Each flag records whether the file exists. -/
structure MergeFiles where
  mergeHead : Bool
  mergedIndex : Bool
  mergedTree : Bool
  mergeMsg : Bool
  mergeBranch : Bool
deriving DecidableEq, Repr

/-- No merge-state file exists. -/
def MergeFiles.none : MergeFiles := ⟨false, false, false, false, false⟩

/-- The message of the `NotFound` raised by `KartRepo.state` when
MERGE_HEAD exists without MERGED_INDEX. -/
def mergedIndexMissingMsg : String :=
  "Kart repo is in \"merging\" state, but required file MERGED_INDEX is missing.\nTry `kart merge --abort` to return to a good state."

/-- `KartRepo.state` (repo.py): looks at the existence of the MERGE_HEAD and
MERGED_INDEX gitdir files; raises `NotFound` when MERGE_HEAD exists without
MERGED_INDEX, otherwise returns MERGING iff MERGE_HEAD exists. -/
def repoState (f : MergeFiles) : Except KartError KartRepoState :=
  let merge_head := f.mergeHead
  let merged_index := f.mergedIndex
  if merge_head ∧ ¬merged_index then
    .error (.notFound mergedIndexMissingMsg)
  else if merge_head then .ok .merging else .ok .normal

/-- A commit id. -/
abbrev CommitId := Nat

/-- The data of a created commit that the merge claims observe: its parent
commit ids, in order. -/
structure CommitInfo where
  parents : List CommitId
deriving DecidableEq, Repr

/-- The slice of a `KartRepo` that the merge state machine manipulates.
`mergeOurs`/`mergeTheirs` model the commit ids recorded by the persisted
`MergeContext` (`merge_context.versions`, read back from the merge-state
files); `unresolvedConflicts` models `MergedIndex.unresolved_conflicts` as
persisted in MERGED_INDEX; `commits` is the list of commits created so far;
`wcResetToHead` records whether `working_copy.reset_to_head()` ran. -/
structure KartRepo where
  files : MergeFiles
  mergeOurs : CommitId
  mergeTheirs : CommitId
  unresolvedConflicts : Nat
  commits : List CommitInfo
  wcResetToHead : Bool
deriving DecidableEq, Repr

/-- The `bad_state_message` used when `--continue` is run outside the
merging state. -/
def badStateForContinueMsg : String :=
  "only works when the Kart repo is in \"merging\" state"

/-- The message of the `InvalidOperation` raised by `complete_merging_state`
when unresolved conflicts remain. -/
def unresolvedConflictsMsg : String :=
  "Merge cannot be completed until all conflicts are resolved - see `kart conflicts`."

/-- The `bad_state_message` used when `--abort` is run with no ongoing
merge. -/
def badStateForAbortMsg : String :=
  "only works when the Kart repo is in \"merging\" state"

/-- `complete_merging_state` (merge.py), as a state-passing function: the
returned repo reflects every mutation performed before the function returned
or raised.  Modelled from the spec where the helpers live outside this
repository slice: `ctx.obj.get_repo(allowed_states=KartRepoState.MERGING)`
raises `InvalidOperation` unless `repo.state` is MERGING;
`MergedIndex.read_from_repo` reads the unresolved-conflict count persisted in
MERGED_INDEX; `MergeContext.read_from_repo` yields the ours/theirs commit
ids; `ALL_MERGE_FILES` is the set of the five merge-state files.  The commit
message / editor plumbing and `repo.gc` do not affect the claim and are
elided. -/
def complete_merging_state (repo : KartRepo) : KartRepo × Except KartError CommitInfo :=
  -- repo = ctx.obj.get_repo(allowed_states=KartRepoState.MERGING, ...)
  match repoState repo.files with
  | .error e => (repo, .error e)
  | .ok .normal => (repo, .error (.invalidOperation badStateForContinueMsg))
  | .ok .merging =>
    -- merged_index = MergedIndex.read_from_repo(repo)
    if repo.unresolvedConflicts ≠ 0 then
      (repo, .error (.invalidOperation unresolvedConflictsMsg))
    else
      -- merge_commit_id = repo.create_commit(..., [commit_ids.ours, commit_ids.theirs])
      let c : CommitInfo := ⟨[repo.mergeOurs, repo.mergeTheirs]⟩
      let repo := { repo with commits := repo.commits ++ [c] }
      -- for filename in ALL_MERGE_FILES: repo.remove_gitdir_file(filename)
      let repo := { repo with files := MergeFiles.none }
      -- repo.working_copy.reset_to_head()
      let repo := { repo with wcResetToHead := true }
      (repo, .ok c)

/-- `abort_merging_state` (merge.py), as a state-passing function.  Modelled
from the spec where the helpers live outside this repository slice:
`ctx.obj.get_repo(allowed_states=KartRepoState.ALL_STATES)` returns the repo
without restricting its state (abort must recover even the corrupt state);
`ALL_MERGE_FILES` is the set of the five merge-state files, removed with
`missing_ok=True`. -/
def abort_merging_state (repo : KartRepo) : KartRepo × Except KartError Unit :=
  let is_ongoing_merge := repo.files.mergeHead
  -- for filename in ALL_MERGE_FILES: repo.remove_gitdir_file(filename)
  let repo := { repo with files := MergeFiles.none }
  if ¬is_ongoing_merge then
    (repo, .error (.invalidOperation badStateForAbortMsg))
  else
    -- repo.working_copy.reset_to_head()
    ({ repo with wcResetToHead := true }, .ok ())

end Kart

/-- C4: `KartRepo.state` returns MERGING exactly when both MERGE_HEAD and
MERGED_INDEX exist, returns NORMAL whenever MERGE_HEAD is absent, raises
`NotFound` (recommending abort) whenever MERGE_HEAD exists without
MERGED_INDEX, and never reports a repository as both merging and normal. -/
theorem c4_repo_state_classification :
    ∀ f : MergeFiles,
      (repoState f = .ok .merging ↔ f.mergeHead = true ∧ f.mergedIndex = true) ∧
      (f.mergeHead = false → repoState f = .ok .normal) ∧
      (f.mergeHead = true → f.mergedIndex = false →
        repoState f = .error (.notFound mergedIndexMissingMsg)) ∧
      ¬(repoState f = .ok .merging ∧ repoState f = .ok .normal) := by
  rintro ⟨mh, mi, mt, mm, mb⟩
  cases mh <;> cases mi <;> simp [repoState]

/-- Witness for C4 at the four concrete file configurations. -/
theorem c4_repo_state_classification_witness :
    repoState ⟨false, true, false, false, false⟩ = .ok .normal ∧
    repoState ⟨true, false, false, false, false⟩ =
      .error (.notFound mergedIndexMissingMsg) ∧
    repoState ⟨true, true, false, false, false⟩ = .ok .merging :=
  ⟨(c4_repo_state_classification ⟨false, true, false, false, false⟩).2.1 rfl,
   (c4_repo_state_classification ⟨true, false, false, false, false⟩).2.2.1 rfl rfl,
   (c4_repo_state_classification ⟨true, true, false, false, false⟩).1.mpr ⟨rfl, rfl⟩⟩

/-- C3: completing a merge with `--continue` fails with `InvalidOperation`
and leaves the repository in the MERGING state whenever the persisted merged
index has a nonzero unresolved-conflict count; when the count is zero it
creates exactly one merge commit whose parents are (ours, theirs) in that
order and takes the repository out of the MERGING state. -/
theorem c3_complete_merging_state :
    ∀ repo : KartRepo, repoState repo.files = .ok .merging →
      (repo.unresolvedConflicts ≠ 0 →
        complete_merging_state repo =
          (repo, .error (.invalidOperation unresolvedConflictsMsg)) ∧
        repoState (complete_merging_state repo).1.files = .ok .merging) ∧
      (repo.unresolvedConflicts = 0 →
        ∃ repo' c, complete_merging_state repo = (repo', .ok c) ∧
          c.parents = [repo.mergeOurs, repo.mergeTheirs] ∧
          repo'.commits = repo.commits ++ [c] ∧
          repoState repo'.files = .ok .normal) := by
  intro repo hm
  constructor
  · intro hnz
    have heq : complete_merging_state repo =
        (repo, .error (.invalidOperation unresolvedConflictsMsg)) := by
      unfold complete_merging_state
      rw [hm]
      simp [hnz]
    exact ⟨heq, by rw [heq]; exact hm⟩
  · intro hz
    have heq : complete_merging_state repo =
        ({ repo with
            commits := repo.commits ++ [⟨[repo.mergeOurs, repo.mergeTheirs]⟩],
            files := MergeFiles.none,
            wcResetToHead := true },
          .ok ⟨[repo.mergeOurs, repo.mergeTheirs]⟩) := by
      unfold complete_merging_state
      rw [hm]
      simp [hz]
    exact ⟨_, _, heq, rfl, rfl, rfl⟩

/-- Witness for C3 at two concrete repositories in the merging state: one
with an unresolved conflict (the completion fails and the repo stays
merging), one fully resolved (a single merge commit with parents
(ours, theirs) is created and the repo leaves the merging state). -/
theorem c3_complete_merging_state_witness :
    (complete_merging_state ⟨⟨true, true, true, true, true⟩, 7, 9, 1, [], false⟩ =
      (⟨⟨true, true, true, true, true⟩, 7, 9, 1, [], false⟩,
        .error (.invalidOperation unresolvedConflictsMsg))) ∧
    (∃ repo' c,
      complete_merging_state ⟨⟨true, true, true, true, true⟩, 7, 9, 0, [], false⟩ =
        (repo', .ok c) ∧
      c.parents = [7, 9] ∧ repo'.commits = [] ++ [c] ∧
      repoState repo'.files = .ok .normal) :=
  ⟨((c3_complete_merging_state ⟨⟨true, true, true, true, true⟩, 7, 9, 1, [], false⟩
      (by rfl)).1 (by decide)).1,
   (c3_complete_merging_state ⟨⟨true, true, true, true, true⟩, 7, 9, 0, [], false⟩
      (by rfl)).2 rfl⟩

/-- C5: after `abort_merging_state` runs - whether or not an ongoing merge
existed, and on its error exit too - none of the five merge-state files
exist and the repository is in the NORMAL (not MERGING) state; when a merge
was ongoing the call succeeds and the working copy is reset to HEAD, and
when none was ongoing it raises `InvalidOperation` (after the cleanup). -/
theorem c5_abort_merging_state :
    ∀ repo : KartRepo,
      (abort_merging_state repo).1.files = MergeFiles.none ∧
      repoState (abort_merging_state repo).1.files = .ok .normal ∧
      (repo.files.mergeHead = true →
        (abort_merging_state repo).2 = .ok () ∧
        (abort_merging_state repo).1.wcResetToHead = true) ∧
      (repo.files.mergeHead = false →
        (abort_merging_state repo).2 =
          .error (.invalidOperation badStateForAbortMsg)) := by
  intro repo
  rcases hmh : repo.files.mergeHead with _ | _ <;>
    simp [abort_merging_state, hmh, repoState, MergeFiles.none]

/-- Witness for C5 at two concrete repositories: one mid-merge (all five
merge-state files present), one not merging at all. -/
theorem c5_abort_merging_state_witness :
    ((abort_merging_state ⟨⟨true, true, true, true, true⟩, 7, 9, 2, [], false⟩).1.files =
      MergeFiles.none ∧
     (abort_merging_state ⟨⟨true, true, true, true, true⟩, 7, 9, 2, [], false⟩).2 =
      .ok ()) ∧
    ((abort_merging_state ⟨MergeFiles.none, 0, 0, 0, [], false⟩).1.files =
      MergeFiles.none ∧
     (abort_merging_state ⟨MergeFiles.none, 0, 0, 0, [], false⟩).2 =
      .error (.invalidOperation badStateForAbortMsg)) :=
  ⟨⟨(c5_abort_merging_state ⟨⟨true, true, true, true, true⟩, 7, 9, 2, [], false⟩).1,
    ((c5_abort_merging_state ⟨⟨true, true, true, true, true⟩, 7, 9, 2, [], false⟩).2.2.1 rfl).1⟩,
   ⟨(c5_abort_merging_state ⟨MergeFiles.none, 0, 0, 0, [], false⟩).1,
    (c5_abort_merging_state ⟨MergeFiles.none, 0, 0, 0, [], false⟩).2.2.2 rfl⟩⟩

namespace Kart

/-! ## Fast-import pipeline (kart/fast_import.py, kart/tile/importer.py) -/

/-- The result of `Schema.diff_type_counts` that
`should_compare_imported_features_against_old_features` inspects: the counts
of primary-key updates, column inserts and column deletes between two
schemas.  The schema type and the counting function itself live outside this
repository slice, so they are abstract parameters here. -/
structure SchemaDiffCounts where
  pk_updates : Nat
  inserts : Nat
  deletes : Nat
deriving DecidableEq, Repr

/-- One step of the walk over `repo.walk(from_commit.id)` as seen by
`should_compare_imported_features_against_old_features`:
either the commit is missing (`_safe_walk_repo` raises `_CommitMissing`,
e.g. in a shallow clone), or the commit is present and the replacing dataset
is absent from it (`datasets[path]` raises `KeyError`) or present with some
schema. -/
inductive WalkEntry (S : Type) where
  | missing
  | commit (ds : Option S)
deriving DecidableEq, Repr

/-- The `for commit in _safe_walk_repo(...)` loop of
`should_compare_imported_features_against_old_features`: walk the log until
a relevant schema change is found.  A missing commit makes the whole walk
return True (the `except _CommitMissing` handler); a commit from which the
dataset is absent returns False (no schema changes since the dataset was
added); a commit whose dataset schema differs from the source schema returns
False on a PK change and True on a column add/drop, and otherwise the walk
continues; an exhausted walk returns False. -/
def schemaWalkLoop {S : Type} [DecidableEq S] (diffCounts : S → S → SchemaDiffCounts)
    (srcSchema : S) : List (WalkEntry S) → Bool
  | [] => false
  | .missing :: _ => true
  | .commit none :: _ => false
  | .commit (some olds) :: rest =>
    if olds ≠ srcSchema then
      let types := diffCounts olds srcSchema
      if types.pk_updates ≠ 0 then false
      else if types.inserts ≠ 0 ∨ types.deletes ≠ 0 then true
      else schemaWalkLoop diffCounts srcSchema rest
    else schemaWalkLoop diffCounts srcSchema rest

/-- `should_compare_imported_features_against_old_features`
(fast_import.py): returns False when there is no replacing dataset; when the
replacing dataset's schema differs from the source schema, returns False on
a PK change and True on a column add/drop; otherwise walks the log
(`schemaWalkLoop`). -/
def should_compare_imported_features_against_old_features {S : Type} [DecidableEq S]
    (diffCounts : S → S → SchemaDiffCounts)
    (replacingDataset : Option S) (srcSchema : S)
    (walk : List (WalkEntry S)) : Bool :=
  match replacingDataset with
  | none => false
  | some old_schema =>
    if old_schema ≠ srcSchema then
      let types := diffCounts old_schema srcSchema
      if types.pk_updates ≠ 0 then false
      else if types.inserts ≠ 0 ∨ types.deletes ≠ 0 then true
      else schemaWalkLoop diffCounts srcSchema walk
    else schemaWalkLoop diffCounts srcSchema walk

end Kart

/-- On a walk whose leading commits carry the source schema unchanged, the
walk loop's verdict is decided by what follows them. -/
theorem schemaWalkLoop_append_same {S : Type} [DecidableEq S]
    (diffCounts : S → S → SchemaDiffCounts) (srcSchema : S)
    (pre rest : List (WalkEntry S))
    (hpre : ∀ e ∈ pre, e = .commit (some srcSchema)) :
    schemaWalkLoop diffCounts srcSchema (pre ++ rest) =
      schemaWalkLoop diffCounts srcSchema rest := by
  induction pre with
  | nil => rfl
  | cons e pre ih =>
    have he : e = .commit (some srcSchema) := hpre e (by simp)
    subst he
    have : schemaWalkLoop diffCounts srcSchema
        (WalkEntry.commit (some srcSchema) :: (pre ++ rest)) =
        schemaWalkLoop diffCounts srcSchema (pre ++ rest) := by
      simp [schemaWalkLoop]
    rw [List.cons_append, this]
    exact ih fun e he => hpre e (by simp [he])

/-- C6: the should-compare heuristic walks the history of the replacing
dataset; with a replacing dataset whose current schema equals the source
schema and a walk whose leading commits carry that schema unchanged:
if the most recent schema-changing commit was a PK change it returns false;
if it was an add/drop of a non-PK column it returns true; if the dataset's
creation point is reached with no schema change (or the walk is exhausted)
it returns false; and if a commit in the walk is missing (shallow clone) it
returns true. -/
theorem c6_should_compare_heuristic {S : Type} [DecidableEq S]
    (diffCounts : S → S → SchemaDiffCounts) (srcSchema : S)
    (pre rest : List (WalkEntry S)) (s : S)
    (hpre : ∀ e ∈ pre, e = .commit (some srcSchema)) :
    (s ≠ srcSchema → (diffCounts s srcSchema).pk_updates ≠ 0 →
      should_compare_imported_features_against_old_features diffCounts
        (some srcSchema) srcSchema (pre ++ .commit (some s) :: rest) = false) ∧
    (s ≠ srcSchema → (diffCounts s srcSchema).pk_updates = 0 →
      (diffCounts s srcSchema).inserts ≠ 0 ∨ (diffCounts s srcSchema).deletes ≠ 0 →
      should_compare_imported_features_against_old_features diffCounts
        (some srcSchema) srcSchema (pre ++ .commit (some s) :: rest) = true) ∧
    (should_compare_imported_features_against_old_features diffCounts
        (some srcSchema) srcSchema (pre ++ .commit none :: rest) = false) ∧
    (should_compare_imported_features_against_old_features diffCounts
        (some srcSchema) srcSchema (pre ++ .missing :: rest) = true) ∧
    (should_compare_imported_features_against_old_features diffCounts
        (some srcSchema) srcSchema pre = false) ∧
    (should_compare_imported_features_against_old_features diffCounts
        none srcSchema (pre ++ rest) = false) := by
  have hw : ∀ l, should_compare_imported_features_against_old_features diffCounts
      (some srcSchema) srcSchema l = schemaWalkLoop diffCounts srcSchema l := by
    intro l
    simp [should_compare_imported_features_against_old_features]
  refine ⟨?_, ?_, ?_, ?_, ?_, rfl⟩
  · intro hs hpk
    rw [hw, schemaWalkLoop_append_same diffCounts srcSchema pre _ hpre]
    simp [schemaWalkLoop, hs, hpk]
  · intro hs hpk hcol
    rw [hw, schemaWalkLoop_append_same diffCounts srcSchema pre _ hpre]
    simp [schemaWalkLoop, hs, hpk, hcol]
  · rw [hw, schemaWalkLoop_append_same diffCounts srcSchema pre _ hpre]
    rfl
  · rw [hw, schemaWalkLoop_append_same diffCounts srcSchema pre _ hpre]
    rfl
  · rw [hw]
    have : pre = pre ++ [] := by simp
    rw [this, schemaWalkLoop_append_same diffCounts srcSchema pre [] hpre]
    rfl

/-- Witness for C6 over concrete schemas (modelled as Nat) whose diff counts
are: schema 1 vs 0 is a PK change, schema 2 vs 0 is a column add, and any
other pair differs in neither. -/
theorem c6_should_compare_heuristic_witness :
    (should_compare_imported_features_against_old_features
      (fun a b => if a = 1 ∧ b = 0 then ⟨1, 0, 0⟩
                  else if a = 2 ∧ b = 0 then ⟨0, 1, 0⟩ else ⟨0, 0, 0⟩)
      (some 0) 0
      ([WalkEntry.commit (some 0)] ++ .commit (some 1) :: []) = false) ∧
    (should_compare_imported_features_against_old_features
      (fun a b => if a = 1 ∧ b = 0 then ⟨1, 0, 0⟩
                  else if a = 2 ∧ b = 0 then ⟨0, 1, 0⟩ else ⟨0, 0, 0⟩)
      (some 0) 0
      ([WalkEntry.commit (some 0)] ++ .missing :: []) = true) := by
  have h := c6_should_compare_heuristic
    (fun a b => if a = 1 ∧ b = 0 then (⟨1, 0, 0⟩ : SchemaDiffCounts)
                else if a = 2 ∧ b = 0 then ⟨0, 1, 0⟩ else ⟨0, 0, 0⟩)
    0 [WalkEntry.commit (some 0)] [] 1 (by intro e he; simpa using he)
  exact ⟨h.1 (by decide) (by decide), h.2.2.2.1⟩

namespace Kart

/-- The observable outcome of one run of a fast-import pipeline, as far as
the temporary-ref claim is concerned: whether the temporary
`refs/kart-import/<uuid>` ref exists when the run ends. -/
structure RefsState where
  tempRefExists : Bool
deriving DecidableEq, Repr

/-- The failure points of a fast-import run.  `streamFails` covers any
exception raised inside the `git_fast_import` block (a source error, a
broken pipe, an interruption); `noChanges` is `new_tree == from_tree`, which
raises `NotFound(NO_CHANGES)` when `allow_empty` is off; `createCommitFails`
covers an exception from the post-stream `repo.create_commit`. -/
structure ImportScenario where
  headerProvided : Bool
  streamFails : Bool
  noChanges : Bool
  allowEmpty : Bool
  createCommitFails : Bool
deriving DecidableEq, Repr

/-- Errors surfaced by a fast-import run. -/
inductive ImportError where
  | subprocessError
  | noChangesError
  | createCommitError
deriving DecidableEq, Repr

/-- `fast_import_tables` (fast_import.py), reduced to the lifecycle of the
temporary import ref.  A temp ref `refs/kart-import/<uuid>` is used exactly
when no `header` was supplied (the upgrade flow supplies one).  Per the
`git fast-import --done` protocol (spec section 4.4, an external contract:
the importer writes to the temporary ref only after the stream completes
successfully; early termination means the import failed), the temp ref
exists after the `with git_fast_import(...)` block iff the stream completed.
The whole body sits in a `try` whose `finally` deletes the temp ref when
`import_ref is not None and import_ref in repo.references`. -/
def fast_import_tables_run (s : ImportScenario) : RefsState × Except ImportError Unit :=
  -- try: import_ref = None; if header is None: import_ref = f"refs/kart-import/{uuid}"
  let importRefUsed := !s.headerProvided
  -- with git_fast_import(repo, *cmd_args) as proc: ... (stream all sources)
  let afterStream : RefsState × Except ImportError Unit :=
    if s.streamFails then
      (⟨false⟩, .error .subprocessError)
    else
      let st : RefsState := ⟨importRefUsed⟩
      -- if import_ref is not None: check the new tree, then create the commit
      if importRefUsed then
        if s.noChanges ∧ ¬s.allowEmpty then (st, .error .noChangesError)
        else if s.createCommitFails then (st, .error .createCommitError)
        else (st, .ok ())
      else (st, .ok ())
  -- finally: if import_ref is not None and import_ref in repo.references:
  --            repo.references.delete(import_ref)
  let st := afterStream.1
  let st := if importRefUsed ∧ st.tempRefExists then ⟨false⟩ else st
  (st, afterStream.2)

/-- `TileImporter.import_tiles` (tile/importer.py), reduced to the lifecycle
of its `fast_import_on_branch` temp ref (always used).  Here the `try` /
`finally` pair wraps only the post-stream commit manipulation; an exception
inside the `with git_fast_import(...)` block propagates before that `try` is
entered, but by the `git fast-import --done` contract the failed stream has
not created the temp ref.  On the post-stream paths (`NO_CHANGES`, a
`create_commit` error, success) the `finally` deletes the temp ref. -/
def import_tiles_run (s : ImportScenario) : RefsState × Except ImportError Unit :=
  -- with git_fast_import(self.repo, ...) as proc: ... (delete + import tiles + meta)
  if s.streamFails then
    (⟨false⟩, .error .subprocessError)
  else
    -- try: (amend or reset the head branch to the temp branch tip)
    let bodyResult : Except ImportError Unit :=
      if s.noChanges ∧ ¬s.allowEmpty then .error .noChangesError
      else if s.createCommitFails then .error .createCommitError
      else .ok ()
    -- finally: self.repo.references[fast_import_on_branch].delete()
    (⟨false⟩, bodyResult)

end Kart

/-- C7: for every run of the fast-import pipeline - `fast_import_tables` and
`TileImporter.import_tiles` alike - and on every exit path (success, failure
partway through the stream, `NO_CHANGES`, or a post-stream error), the
temporary `refs/kart-import/<uuid>` ref does not exist when the run ends. -/
theorem c7_temp_import_ref_always_deleted :
    ∀ s : ImportScenario,
      (fast_import_tables_run s).1.tempRefExists = false ∧
      (import_tiles_run s).1.tempRefExists = false := by
  rintro ⟨hp, sf, nc, ae, cf⟩
  cases hp <;> cases sf <;> cases nc <;> cases ae <;> cases cf <;>
    simp [fast_import_tables_run, import_tiles_run]

/-! ## Feature import limit (kart/fast_import.py, `_import_single_source`) -/

namespace Kart

/-- The feature-writing loop of `_import_single_source`:

`for i, (feature_path, blob_data) in enumerate(feature_blob_iter): ...` -
each iterated feature blob is written to the stream, and after writing, the
loop breaks when `limit is not None and i == (limit - 1)`.  The Python
comparison is over unbounded integers, so it is modelled over `Int` (with
`limit = 0` the break condition `i == -1` never fires). -/
def importFeaturesLoop {α : Type} (limit : Option Nat) : List α → Nat → List α
  | [], _ => []
  | f :: rest, i =>
    f :: (match limit with
          | none => importFeaturesLoop none rest (i + 1)
          | some n =>
            if (i : Int) = (n : Int) - 1 then []
            else importFeaturesLoop (some n) rest (i + 1))

/-- The feature blobs `_import_single_source` writes for one source:
the loop starts at index 0. -/
def importedFeatureBlobs {α : Type} (limit : Option Nat) (features : List α) : List α :=
  importFeaturesLoop limit features 0

end Kart

/-- Generalisation of C8 over the running index: starting the loop at index
`i < N` over a list long enough, exactly the next `N - i` features are
written. -/
theorem importFeaturesLoop_take {α : Type} (N : Nat) :
    ∀ (fs : List α) (i : Nat), i < N → N - i ≤ fs.length →
      importFeaturesLoop (some N) fs i = fs.take (N - i) := by
  intro fs
  induction fs with
  | nil =>
    intro i hi hlen
    simp [importFeaturesLoop]
  | cons f rest ih =>
    intro i hi hlen
    rw [importFeaturesLoop]
    by_cases hstop : (i : Int) = (N : Int) - 1
    · have hN : N - i = 1 := by omega
      simp [hstop, hN]
    · have hlt : i + 1 < N := by omega
      have : N - i = (N - (i + 1)) + 1 := by omega
      rw [this, List.take_succ_cons]
      simp only [hstop, if_false]
      rw [ih (i + 1) hlt (by simp at hlen; omega)]

/-- C8: invoking the import with `limit = N` (N > 0) against a source
providing at least `N` features writes exactly the first `N` feature blobs
of that source to the stream - the iteration stops at the N-th feature
inclusive. -/
theorem c8_import_limit {α : Type} (N : Nat) (fs : List α)
    (hN : 0 < N) (hlen : N ≤ fs.length) :
    importedFeatureBlobs (some N) fs = fs.take N ∧
    (importedFeatureBlobs (some N) fs).length = N := by
  have h : importedFeatureBlobs (some N) fs = fs.take N := by
    unfold importedFeatureBlobs
    have := importFeaturesLoop_take N fs 0 hN (by omega)
    simpa using this
  exact ⟨h, by rw [h]; exact List.length_take_of_le hlen⟩

/-- Witness for C8: limit 2 over a source of three features writes exactly
the first two. -/
theorem c8_import_limit_witness :
    importedFeatureBlobs (some 2) [10, 20, 30] = [10, 20] ∧
    (importedFeatureBlobs (some 2) [10, 20, 30]).length = 2 :=
  c8_import_limit 2 [10, 20, 30] (by decide) (by decide)

namespace Kart

/-! ## Key filters (kart/key_filters.py)

The dataset-glob machinery of `RepoKeyFilter` stores its patterns escaped
and matches candidate keys with Python's `fnmatch.fnmatch`.  The model below
embeds `fnmatch` as its documented semantics on POSIX (where
`os.path.normcase` is the identity): the pattern is scanned into tokens
exactly as `fnmatch.translate` scans it (`*`, `?`, and `[...]` classes,
where the class scan skips a leading `!` and a leading `]`, and an unmatched
`[` is a literal), and matching follows the produced regular expression
(character classes with literals and ranges; a reversed range matches
nothing; an empty class never matches; a negated empty class matches any
character). -/

/-- A token of a translated fnmatch pattern. -/
inductive GlobTok where
  | lit (c : Char)
  | anyChar
  | star
  | cls (stuff : List Char)
deriving DecidableEq, Repr

/-- Scan the body of a `[...]` class up to the closing `]`; `none` when the
closing bracket is missing. -/
def scanClassBody : List Char → Option (List Char × List Char)
  | [] => none
  | ']' :: rest => some ([], rest)
  | c :: rest =>
    match scanClassBody rest with
    | none => none
    | some (stuff, rem) => some (c :: stuff, rem)

/-- The class scan of `fnmatch.translate` for the characters after a `[`:
a leading `!` and then a leading `]` belong to the class body, after which
the body runs to the next `]`. -/
def splitClass (l : List Char) : Option (List Char × List Char) :=
  match l with
  | '!' :: ']' :: rest =>
    (scanClassBody rest).map (fun p => ('!' :: ']' :: p.1, p.2))
  | '!' :: rest =>
    (scanClassBody rest).map (fun p => ('!' :: p.1, p.2))
  | ']' :: rest =>
    (scanClassBody rest).map (fun p => (']' :: p.1, p.2))
  | _ => scanClassBody l

/-- The token scan of `fnmatch.translate`.  `fuel` bounds the recursion (the
class scan consumes at least one character, so the pattern length is enough
fuel); consecutive `*` produce consecutive star tokens, which match the same
strings as the single collapsed star that `translate` emits. -/
def tokensAux : Nat → List Char → List GlobTok
  | 0, _ => []
  | _, [] => []
  | fuel + 1, '*' :: rest => .star :: tokensAux fuel rest
  | fuel + 1, '?' :: rest => .anyChar :: tokensAux fuel rest
  | fuel + 1, '[' :: rest =>
    match splitClass rest with
    | none => .lit '[' :: tokensAux fuel rest
    | some (stuff, rem) => .cls stuff :: tokensAux fuel rem
  | fuel + 1, c :: rest => .lit c :: tokensAux fuel rest

/-- `fnmatch.translate`, as a token list. -/
def fnmatchTranslate (pat : List Char) : List GlobTok :=
  tokensAux pat.length pat

/-- Membership of a character in a class body (after any leading `!` has
been stripped): literal members, with `x-y` ranges when the `-` is neither
first nor last. -/
def classMemberMatch (c : Char) : List Char → Bool
  | [] => false
  | [x] => c == x
  | [x, '-'] => c == x || c == '-'
  | x :: '-' :: y :: rest =>
    (decide (x ≤ c) && decide (c ≤ y)) || classMemberMatch c rest
  | x :: rest => c == x || classMemberMatch c rest

/-- Class matching, with `!` negation: an empty class never matches, a
negated empty class matches any character. -/
def classMatches (stuff : List Char) (c : Char) : Bool :=
  match stuff with
  | [] => false
  | ['!'] => true
  | '!' :: rest => !(classMemberMatch c rest)
  | _ => classMemberMatch c stuff

/-- Matching a token list against a string, following the regular expression
that `fnmatch.translate` produces (anchored at both ends).  `fuel` bounds the
recursion; every step shortens the token list or the string, so
`tokens + string + 1` is enough. -/
def globMatchAux : Nat → List GlobTok → List Char → Bool
  | 0, _, _ => false
  | _ + 1, [], s => s.isEmpty
  | fuel + 1, .star :: ts, s =>
    globMatchAux fuel ts s ||
      (match s with
       | [] => false
       | _ :: s2 => globMatchAux fuel (.star :: ts) s2)
  | _ + 1, .anyChar :: _, [] => false
  | fuel + 1, .anyChar :: ts, _ :: s => globMatchAux fuel ts s
  | _ + 1, .lit _ :: _, [] => false
  | fuel + 1, .lit c :: ts, c2 :: s => (c == c2) && globMatchAux fuel ts s
  | _ + 1, .cls _ :: _, [] => false
  | fuel + 1, .cls stuff :: ts, c2 :: s => classMatches stuff c2 && globMatchAux fuel ts s

/-- `fnmatch.fnmatch(name, pat)` on POSIX. -/
def pyFnmatch (name pat : List Char) : Bool :=
  globMatchAux ((fnmatchTranslate pat).length + name.length + 1) (fnmatchTranslate pat) name

/-- Python `str.replace(needle, repl)` for a single-character needle:
replaces every occurrence, scanning left to right (the replacement text is
not rescanned). -/
def pyReplaceChar (needle : Char) (repl : List Char) : List Char → List Char
  | [] => []
  | c :: rest =>
    if c == needle then repl ++ pyReplaceChar needle repl rest
    else c :: pyReplaceChar needle repl rest

/-- The escaping loop of `RepoKeyFilter.__setitem__` for keys containing
`*`:

  for char in "?[]": key = key.replace(char, f"[{char}]")

i.e. first every `?` becomes `[?]`, then every `[` of the result becomes
`[[]`, then every `]` of that result becomes `[]]`. -/
def escapeGlobKey (key : List Char) : List Char :=
  pyReplaceChar ']' ['[', ']', ']']
    (pyReplaceChar '[' ['[', '[', ']']
      (pyReplaceChar '?' ['[', '?', ']'] key))

/-- The test `RepoKeyFilter._dataset_glob_pattern_matching_key` applies to a
candidate dataset path for one stored glob pattern:
`fnmatch.fnmatch(key, glob_pattern)`, where the stored `glob_pattern` is the
escaped form of the user's pattern (a key containing `*`). -/
def datasetGlobMatches (userPattern candidateKey : String) : Bool :=
  pyFnmatch candidateKey.data (escapeGlobKey userPattern.data)

/-- Modelled from the spec: "Dataset-level globs use shell-style `*`
matching only (no `?`/`[]`)" / "`*` is the only supported glob
metacharacter" - `*` matches any sequence of characters and every other
character of the pattern, including `?`, `[` and `]`, matches itself
literally. -/
def starOnlyAux : Nat → List Char → List Char → Bool
  | 0, _, _ => false
  | _ + 1, [], s => s.isEmpty
  | fuel + 1, '*' :: p, s =>
    starOnlyAux fuel p s ||
      (match s with
       | [] => false
       | _ :: s2 => starOnlyAux fuel ('*' :: p) s2)
  | _ + 1, _ :: _, [] => false
  | fuel + 1, c :: p, c2 :: s => (c == c2) && starOnlyAux fuel p s

/-- Modelled from the spec: matching a dataset glob against a candidate path
with `*` as the only metacharacter. -/
def starOnlyGlobMatches (pattern key : String) : Bool :=
  starOnlyAux (pattern.data.length + key.data.length + 1) pattern.data key.data

end Kart

/-- C9 evaluated at the failing input: the sequential escaping loop of
`RepoKeyFilter.__setitem__` re-escapes the brackets it has itself inserted,
so the stored pattern for the user pattern "a?*" is "a[[[]]?[]]*" - in which
`?` is an fnmatch wildcard and two literal brackets are required.  The code
therefore rejects the candidate "a?b" (which the `*`-only literal semantics
accepts) and accepts "a[]q]x" (which the `*`-only semantics rejects): `?`,
`[`, `]` are not treated as literal characters. -/
theorem c9_glob_escaping_failing_input :
    escapeGlobKey "a?*".data = "a[[[]]?[]]*".data ∧
    datasetGlobMatches "a?*" "a?b" = false ∧
    starOnlyGlobMatches "a?*" "a?b" = true ∧
    datasetGlobMatches "a?*" "a[]q]x" = true ∧
    starOnlyGlobMatches "a?*" "a[]q]x" = false := by
  refine ⟨by decide, by decide, by decide, by decide, by decide⟩

namespace Kart

/-- `UserStringKeyFilter` (key_filters.py): a set of user-supplied key
strings plus a `match_all` flag.  Keys are modelled as strings (Python
stringifies tuple keys before the membership test in `__contains__`). -/
structure UserStringKeyFilter where
  match_all : Bool
  elems : List String
deriving DecidableEq, Repr

/-- `UserStringKeyFilter.MATCH_ALL = UserStringKeyFilter(match_all=True)`. -/
def uskMatchAll : UserStringKeyFilter := ⟨true, []⟩

/-- `UserStringKeyFilter.__contains__`: True when `match_all`, else set
membership of the (stringified) key. -/
def UserStringKeyFilter.containsKey (f : UserStringKeyFilter) (key : String) : Bool :=
  f.match_all || f.elems.contains key

/-- `UserStringKeyFilter.add`: `if not self.match_all: super().add(key)`
(set add: a no-op when the key is already present). -/
def UserStringKeyFilter.add (f : UserStringKeyFilter) (key : String) : UserStringKeyFilter :=
  if !f.match_all then
    if f.elems.contains key then f else { f with elems := f.elems ++ [key] }
  else f

/-- `DatasetKeyFilter` (a `KeyFilterDict`): maps section names ("meta",
"feature", "tile") to `UserStringKeyFilter` children, plus a `match_all`
flag. -/
structure DatasetKeyFilter where
  match_all : Bool
  entries : List (String × UserStringKeyFilter)
deriving DecidableEq, Repr

/-- `DatasetKeyFilter.MATCH_ALL = DatasetKeyFilter(match_all=True)`; its
`child_that_matches_all` is `UserStringKeyFilter(match_all=True)`. -/
def dskMatchAll : DatasetKeyFilter := ⟨true, []⟩

/-- `KeyFilterDict.__contains__`: True when `match_all`, else dict
membership. -/
def DatasetKeyFilter.containsKey (f : DatasetKeyFilter) (key : String) : Bool :=
  f.match_all || f.entries.any (fun e => e.1 == key)

/-- `KeyFilterDict.get` / `__getitem__`: the child that matches all when
`match_all`, else the stored child (`none` models the default / KeyError). -/
def DatasetKeyFilter.get (f : DatasetKeyFilter) (key : String) : Option UserStringKeyFilter :=
  if f.match_all then some uskMatchAll
  else (f.entries.find? (fun e => e.1 == key)).map (·.2)

/-- `KeyFilterDict.__setitem__`: `if not self.match_all:
super().__setitem__(key, value)` (dict assignment: replace or append). -/
def DatasetKeyFilter.setItem (f : DatasetKeyFilter) (key : String)
    (v : UserStringKeyFilter) : DatasetKeyFilter :=
  if !f.match_all then
    if f.entries.any (fun e => e.1 == key) then
      { f with entries := f.entries.map (fun e => if e.1 == key then (key, v) else e) }
    else { f with entries := f.entries ++ [(key, v)] }
  else f

/-- `RepoKeyFilter`: maps dataset paths to `DatasetKeyFilter` children, with
a `match_all` flag and the side dict `_dataset_glob_filters` of escaped glob
patterns. -/
structure RepoKeyFilter where
  match_all : Bool
  entries : List (String × DatasetKeyFilter)
  datasetGlobFilters : List (String × DatasetKeyFilter)
deriving DecidableEq, Repr

/-- `RepoKeyFilter.MATCH_ALL = RepoKeyFilter(match_all=True)`; its
`child_that_matches_all` is `DatasetKeyFilter(match_all=True)`. -/
def rkfMatchAll : RepoKeyFilter := ⟨true, [], []⟩

/-- `RepoKeyFilter._dataset_glob_pattern_matching_key`: the first stored
glob pattern that fnmatches the key, if any. -/
def RepoKeyFilter.globPatternMatchingKey (f : RepoKeyFilter) (key : String) :
    Option String :=
  (f.datasetGlobFilters.find? (fun e => pyFnmatch key.data e.1.data)).map (·.1)

/-- `RepoKeyFilter.__contains__`: the `KeyFilterDict` membership (True when
`match_all`) or a stored glob pattern matching the key. -/
def RepoKeyFilter.containsKey (f : RepoKeyFilter) (key : String) : Bool :=
  (f.match_all || f.entries.any (fun e => e.1 == key)) ||
    (f.globPatternMatchingKey key).isSome

/-- `RepoKeyFilter.__getitem__` / `get`: the child that matches all when
`match_all`; else the stored child; else the child stored for a matching
glob pattern (`none` models KeyError / the default). -/
def RepoKeyFilter.get (f : RepoKeyFilter) (key : String) : Option DatasetKeyFilter :=
  if f.match_all then some dskMatchAll
  else
    match (f.entries.find? (fun e => e.1 == key)).map (·.2) with
    | some v => some v
    | none =>
      match f.globPatternMatchingKey key with
      | none => none
      | some pat => (f.datasetGlobFilters.find? (fun e => e.1 == pat)).map (·.2)

/-- `RepoKeyFilter.__setitem__`: returns unchanged when `match_all`;
otherwise keys containing `*` are escaped and registered in
`_dataset_glob_filters`, and the (possibly escaped) key is stored in the
dict as well. -/
def RepoKeyFilter.setItem (f : RepoKeyFilter) (key : String)
    (v : DatasetKeyFilter) : RepoKeyFilter :=
  if f.match_all then f
  else
    let key := if key.data.contains '*' then ⟨escapeGlobKey key.data⟩ else key
    let f :=
      if key.data.contains '*' then
        { f with datasetGlobFilters :=
            if f.datasetGlobFilters.any (fun e => e.1 == key) then
              f.datasetGlobFilters.map (fun e => if e.1 == key then (key, v) else e)
            else f.datasetGlobFilters ++ [(key, v)] }
      else f
    if f.entries.any (fun e => e.1 == key) then
      { f with entries := f.entries.map (fun e => if e.1 == key then (key, v) else e) }
    else { f with entries := f.entries ++ [(key, v)] }

end Kart

/-- C10: the MATCH_ALL singletons of `UserStringKeyFilter`,
`DatasetKeyFilter` and `RepoKeyFilter` report containing every key, return a
match-all child for every lookup, and silently ignore every add / item
assignment: after any sequence of such operations each filter is still the
match-all filter, with no explicit entries. -/
theorem c10_match_all_filters :
    (∀ k, uskMatchAll.containsKey k = true) ∧
    (∀ ks : List String, ks.foldl UserStringKeyFilter.add uskMatchAll = uskMatchAll) ∧
    (∀ k, dskMatchAll.containsKey k = true) ∧
    (∀ k, dskMatchAll.get k = some uskMatchAll) ∧
    (∀ ops : List (String × UserStringKeyFilter),
      ops.foldl (fun f kv => f.setItem kv.1 kv.2) dskMatchAll = dskMatchAll) ∧
    (∀ k, rkfMatchAll.containsKey k = true) ∧
    (∀ k, rkfMatchAll.get k = some dskMatchAll) ∧
    (∀ ops : List (String × DatasetKeyFilter),
      ops.foldl (fun f kv => f.setItem kv.1 kv.2) rkfMatchAll = rkfMatchAll) := by
  refine ⟨fun k => rfl, ?_, fun k => rfl, fun k => rfl, ?_, fun k => rfl,
    fun k => rfl, ?_⟩
  · intro ks
    induction ks with
    | nil => rfl
    | cons k ks ih => simpa [UserStringKeyFilter.add, uskMatchAll] using ih
  · intro ops
    induction ops with
    | nil => rfl
    | cons kv ops ih => simpa [DatasetKeyFilter.setItem, dskMatchAll] using ih
  · intro ops
    induction ops with
    | nil => rfl
    | cons kv ops ih => simpa [RepoKeyFilter.setItem, rkfMatchAll] using ih
